import Mathlib

/-!
Verification development for the `the-league` Kubernetes operator.

The file shallowly embeds the data model and controller logic of the
repository and proves or refutes the specification claims about them.

Sources embedded:
* `src/api/v1alpha1/the_league_types.rs` — `TheLeagueSpec`, `Team`, `Player`
  together with the schema validation annotations on `max_teams` and the
  name fields.
* `src/api/v1alpha1/game_result_types.rs` — `GameResultSpec`, `GameOutcome`
  and its serde (externally tagged) wire format.
* `src/api/v1alpha1/standing_types.rs` — `StandingSpec`, `StandingStatus`,
  `StandingResolution`.
* `src/controller/controller.rs` — `TheLeagueController::reconcile` and
  `TheLeagueController::error_policy`.
* `src/controller/theleague_controller.rs` — `Reconciler::reconcile` and
  `Reconciler::error_policy`.

The aggregation engine described by the specification (section 4.1) has no
implementation in `src/`; where claims depend on it, the definitions are
modelled from the spec and say so in their doc comments.
-/

/-! ## Data model (the_league_types.rs) -/

/-- Player from `the_league_types.rs`: first and last name. -/
structure Player where
  first_name : String
  last_name : String
deriving DecidableEq, Repr

/-- Team from `the_league_types.rs`: unique name, optional description and
location, roster of players. -/
structure Team where
  name : String
  description : Option String
  location : Option String
  players : List Player
deriving DecidableEq, Repr

/-- TheLeagueSpec from `the_league_types.rs`. `max_teams` is a `u8` in Rust,
so its raw value range is `0..=255`; the schema annotations further restrict
it (see `schemaAcceptsMaxTeams`). -/
structure TheLeagueSpec where
  max_teams : Nat
  matchups : Nat
  teams : List Team
deriving DecidableEq, Repr

/-- Condition metadata (from `k8s_openapi` `meta/v1::Condition`, as used by
the status types). The timestamp is kept as its RFC3339 wire string. -/
structure Condition where
  type_ : String
  status : String
  reason : String
  message : String
  last_transition_time : String
  observed_generation : Option Int
deriving DecidableEq, Repr

/-- TheLeagueStatus from `the_league_types.rs`. -/
structure TheLeagueStatus where
  live : Bool
  conditions : Option (List Condition)
deriving DecidableEq, Repr

/-- A TheLeague custom resource: object metadata (name, optional
Kubernetes name-space) plus spec and optional status. -/
structure TheLeague where
  name : String
  nspace : Option String
  spec : TheLeagueSpec
  status : Option TheLeagueStatus
deriving DecidableEq, Repr

/-! ## Schema validation (annotations in the_league_types.rs)

`max_teams` carries `validate(minimum=1)` and `validate(maximum=8)`;
`Team.name` carries `validate(pattern = "^[a-zA-Z0-9 ]+$")`; `Player`'s
`first_name` and `last_name` each carry `validate(pattern = "^[a-zA-Z]+$")`.
-/

/-- Schema acceptance for the `max_teams` field: the value must fit in a
`u8` and satisfy the annotated `minimum=1` / `maximum=8` bounds. -/
def schemaAcceptsMaxTeams (v : Nat) : Prop :=
  v ≤ 255 ∧ 1 ≤ v ∧ v ≤ 8

instance (v : Nat) : Decidable (schemaAcceptsMaxTeams v) := by
  unfold schemaAcceptsMaxTeams; infer_instance

/-- Character class `[a-zA-Z0-9 ]` of the `Team.name` schema pattern. -/
def teamNameClassChar (c : Char) : Bool :=
  (decide ('a' ≤ c) && decide (c ≤ 'z')) ||
  (decide ('A' ≤ c) && decide (c ≤ 'Z')) ||
  (decide ('0' ≤ c) && decide (c ≤ '9')) ||
  (c == ' ')

/-- Character class `[a-zA-Z]` of the player name schema pattern. -/
def playerNameClassChar (c : Char) : Bool :=
  (decide ('a' ≤ c) && decide (c ≤ 'z')) ||
  (decide ('A' ≤ c) && decide (c ≤ 'Z'))

/-- Semantics of an anchored one-class regular expression of the shape
`^[class]+$`: the string is non-empty and every character is in the class. -/
def matchesAnchoredPlus (cls : Char → Bool) (s : String) : Bool :=
  !s.data.isEmpty && s.data.all cls

/-- Schema acceptance for a `Team`: its `name` matches `^[a-zA-Z0-9 ]+$`. -/
def schemaAcceptsTeam (t : Team) : Bool :=
  matchesAnchoredPlus teamNameClassChar t.name

/-- Schema acceptance for a `Player`: both names match `^[a-zA-Z]+$`. -/
def schemaAcceptsPlayer (p : Player) : Bool :=
  matchesAnchoredPlus playerNameClassChar p.first_name &&
  matchesAnchoredPlus playerNameClassChar p.last_name

/-! ## GameResult (game_result_types.rs) -/

/-- GameOutcome from `game_result_types.rs`: a Rust enum with three
struct variants. -/
inductive GameOutcome where
  | WinnerHomeTeam (score_home : Nat) (score_away : Nat)
  | WinnerAwayTeam (score_home : Nat) (score_away : Nat)
  | Draw (score : Nat)
deriving DecidableEq, Repr

/-- Wire tag of a `GameOutcome` value. serde serializes a plain Rust enum
with struct variants in externally tagged form, the tag being the variant
name exactly as declared. -/
def GameOutcome.serdeTag : GameOutcome → String
  | GameOutcome.WinnerHomeTeam _ _ => "WinnerHomeTeam"
  | GameOutcome.WinnerAwayTeam _ _ => "WinnerAwayTeam"
  | GameOutcome.Draw _ => "Draw"

/-- Wire fields of a `GameOutcome` value: the named numeric fields of the
struct variant, in declaration order. -/
def GameOutcome.serdeFields : GameOutcome → List (String × Nat)
  | GameOutcome.WinnerHomeTeam sh sa => [("score_home", sh), ("score_away", sa)]
  | GameOutcome.WinnerAwayTeam sh sa => [("score_home", sh), ("score_away", sa)]
  | GameOutcome.Draw s => [("score", s)]

/-- Externally tagged deserialization of a `GameOutcome`: dispatch on the
tag, then read the variant's named fields; anything else is rejected. -/
def GameOutcome.deserialize (tag : String) (fields : List (String × Nat)) :
    Option GameOutcome :=
  if tag = "WinnerHomeTeam" then
    match fields.lookup "score_home", fields.lookup "score_away" with
    | some sh, some sa => some (GameOutcome.WinnerHomeTeam sh sa)
    | _, _ => none
  else if tag = "WinnerAwayTeam" then
    match fields.lookup "score_home", fields.lookup "score_away" with
    | some sh, some sa => some (GameOutcome.WinnerAwayTeam sh sa)
    | _, _ => none
  else if tag = "Draw" then
    match fields.lookup "score" with
    | some s => some (GameOutcome.Draw s)
    | none => none
  else none

/-- GameResultSpec from `game_result_types.rs`. The Rust field
`teams: [String; 2]` is embedded as a function out of `Fin 2`, which is
exactly a two-element array. -/
structure GameResultSpec where
  league_name : String
  round_number : Nat
  teams : Fin 2 → String
  time : String
  result : GameOutcome

/-- The home team: per the source doc comments, the FIRST element of the
`teams` array. -/
def GameResultSpec.home (g : GameResultSpec) : String := g.teams 0

/-- The away team: per the source doc comments, the SECOND element of the
`teams` array. -/
def GameResultSpec.away (g : GameResultSpec) : String := g.teams 1

/-- The `teams` array viewed as a list, in array order. -/
def GameResultSpec.teamsList (g : GameResultSpec) : List String :=
  List.ofFn g.teams

/-- The winning team designated by the outcome tag, per the source doc
comments: `WinnerHomeTeam` names the first element of `teams`,
`WinnerAwayTeam` the second, and a `Draw` has no winner. -/
def GameResultSpec.winner (g : GameResultSpec) : Option String :=
  match g.result with
  | GameOutcome.WinnerHomeTeam _ _ => some (GameResultSpec.home g)
  | GameOutcome.WinnerAwayTeam _ _ => some (GameResultSpec.away g)
  | GameOutcome.Draw _ => none

/-! ## Standing (standing_types.rs) -/

/-- StandingResolution from `standing_types.rs`. -/
inductive StandingResolution where
  | Head2Head
  | GoalDifference
deriving DecidableEq, Repr

/-- StandingStatus from `standing_types.rs`. -/
structure StandingStatus where
  points : Nat
  wins : Nat
  losses : Nat
  draws : Nat
  conditions : Option (List Condition)
deriving DecidableEq, Repr

/-- StandingSpec from `standing_types.rs`. -/
structure StandingSpec where
  league_name : String
  team_name : String
  resolution : StandingResolution
deriving DecidableEq, Repr

/-! ## Controllers (controller.rs, theleague_controller.rs) -/

/-- Reconciler action returned by `kube`'s controller runtime: requeue
after a number of seconds, or wait for the next change event. -/
inductive KubeAction where
  | requeue (secs : Nat)
  | awaitChange
deriving DecidableEq, Repr

/-- Errors surfaced by the Kubernetes client: an API error with an HTTP
status code, or any other failure. -/
inductive KubeError where
  | api (code : Nat)
  | other
deriving DecidableEq, Repr

/-- TheLeagueController::reconcile from `controller.rs`: logs the request
and unconditionally returns `Ok(KubeAction::requeue(3600 s))`. -/
def TheLeagueController.reconcile (_league : TheLeague) : Except KubeError KubeAction :=
  Except.ok (KubeAction.requeue 3600)

/-- TheLeagueController::error_policy from `controller.rs`: logs the error
and requeues after a fixed 5 seconds, for any object and any error. -/
def TheLeagueController.error_policy (_league : TheLeague) (_err : KubeError) : KubeAction :=
  KubeAction.requeue 5

/-- Reconciler::reconcile from `theleague_controller.rs`. The function
re-fetches the league by name; the outcome of that `get` is passed in as
`getResult`. On a successful fetch the source builds an initial `Processing`
condition when the observed condition list is non-empty, but the status
patch that would write it is commented out, so the construction has no
observable effect and the function returns `Ok(requeue 3600 s)`. A 404 from
the `get` returns `Ok(await_change)`; any other error is propagated. -/
def Reconciler.reconcile (_league : TheLeague) (getResult : Except KubeError TheLeague) :
    Except KubeError KubeAction :=
  match getResult with
  | Except.ok _fetched => Except.ok (KubeAction.requeue 3600)
  | Except.error (KubeError.api code) =>
      if code = 404 then Except.ok KubeAction.awaitChange
      else Except.error (KubeError.api code)
  | Except.error KubeError.other => Except.error KubeError.other

/-- Reconciler::error_policy from `theleague_controller.rs`: identical to
the one in `controller.rs`, a fixed 5 second requeue. -/
def Reconciler.error_policy (_league : TheLeague) (_err : KubeError) : KubeAction :=
  KubeAction.requeue 5

/-- State-store mutations a reconciliation could perform on Standings. -/
inductive StoreOp where
  | conditionalWriteStandingStatus (team : String) (newStatus : StandingStatus)
      (expectedVersion : Nat)
  | deleteStanding (team : String)
deriving DecidableEq, Repr

/-- Reconciler::reconcile together with the store mutations it performs.
The only store access in the source body is the initial read (`get`); the
status patch is commented out and no Standing is ever written or deleted,
so the operation log is empty on every path. -/
def Reconciler.reconcileOps (league : TheLeague) (getResult : Except KubeError TheLeague) :
    Except KubeError KubeAction × List StoreOp :=
  (Reconciler.reconcile league getResult, [])

/-! ## Aggregation engine

Modelled from the spec: the Aggregation Engine of section 4.1 ("folds a set
of game results for one league into per-team accumulators") has no
implementation under `src/`; only the doc comment on `GameOutcome`
("Winner: 3 points, Loser: 0 points, Draw: 1 point each") records the
points rule. The definitions below follow the spec's words: per-team
accumulators `{points, wins, losses, draws, goals_for, goals_against}`,
games referencing a team outside the league's team list are excluded, and
aggregation is a fold of per-game contributions. -/

/-- Modelled from the spec: per-team accumulator of section 4.1. -/
structure Accumulator where
  points : Nat
  wins : Nat
  losses : Nat
  draws : Nat
  goals_for : Nat
  goals_against : Nat
deriving DecidableEq, Repr

/-- Componentwise addition of accumulators. -/
def Accumulator.add (a b : Accumulator) : Accumulator :=
  ⟨a.points + b.points, a.wins + b.wins, a.losses + b.losses,
   a.draws + b.draws, a.goals_for + b.goals_for, a.goals_against + b.goals_against⟩

instance : Add Accumulator := ⟨Accumulator.add⟩

instance : Zero Accumulator := ⟨⟨0, 0, 0, 0, 0, 0⟩⟩

instance : AddCommMonoid Accumulator where
  add_assoc a b c := by
    cases a; cases b; cases c
    show Accumulator.add (Accumulator.add _ _) _ = Accumulator.add _ (Accumulator.add _ _)
    simp [Accumulator.add]
    omega
  zero_add a := by
    cases a
    show Accumulator.add ⟨0, 0, 0, 0, 0, 0⟩ _ = _
    simp [Accumulator.add]
  add_zero a := by
    cases a
    show Accumulator.add _ ⟨0, 0, 0, 0, 0, 0⟩ = _
    simp [Accumulator.add]
  add_comm a b := by
    cases a; cases b
    show Accumulator.add _ _ = Accumulator.add _ _
    simp [Accumulator.add]
    omega
  nsmul := nsmulRec

/-- Modelled from the spec: accumulator credited to the winner of a game
(3 points, one win, the game's goals). -/
def winContribution (gf ga : Nat) : Accumulator := ⟨3, 1, 0, 0, gf, ga⟩

/-- Modelled from the spec: accumulator credited to the loser of a game
(0 points, one loss, the game's goals). -/
def lossContribution (gf ga : Nat) : Accumulator := ⟨0, 0, 1, 0, gf, ga⟩

/-- Modelled from the spec: accumulator credited to each side of a draw
(1 point, one draw, the shared score on both sides). -/
def drawContribution (s : Nat) : Accumulator := ⟨1, 0, 0, 1, s, s⟩

/-- The names of the teams currently registered in a league. -/
def TheLeagueSpec.teamNames (l : TheLeagueSpec) : List String :=
  l.teams.map Team.name

/-- Modelled from the spec: the home team's accumulator contribution of a
single outcome. -/
def GameOutcome.homeContribution : GameOutcome → Accumulator
  | GameOutcome.WinnerHomeTeam sh sa => winContribution sh sa
  | GameOutcome.WinnerAwayTeam sh sa => lossContribution sh sa
  | GameOutcome.Draw s => drawContribution s

/-- Modelled from the spec: the away team's accumulator contribution of a
single outcome (its goals-for are the away score). -/
def GameOutcome.awayContribution : GameOutcome → Accumulator
  | GameOutcome.WinnerHomeTeam sh sa => lossContribution sa sh
  | GameOutcome.WinnerAwayTeam sh sa => winContribution sa sh
  | GameOutcome.Draw s => drawContribution s

/-- Modelled from the spec: the contribution of one game to one team's
accumulator. A game referencing a team outside the league's current team
list is excluded and contributes nothing (section 4.1 input constraint). -/
def gameContribution (league : TheLeagueSpec) (team : String) (g : GameResultSpec) :
    Accumulator :=
  if league.teamNames.contains (GameResultSpec.home g) &&
     league.teamNames.contains (GameResultSpec.away g) then
    (if team = GameResultSpec.home g then GameOutcome.homeContribution g.result else 0) +
    (if team = GameResultSpec.away g then GameOutcome.awayContribution g.result else 0)
  else 0

/-- Modelled from the spec: the Aggregation Engine's accumulator for one
team — the sum of the per-game contributions over the league's game
results. -/
def aggregateTeam (league : TheLeagueSpec) (results : List GameResultSpec)
    (team : String) : Accumulator :=
  (results.map (gameContribution league team)).sum

/-- Modelled from the spec: the StandingStatus the engine computes for a
team — the projection of its accumulator onto the status fields. -/
def computeStatus (league : TheLeagueSpec) (results : List GameResultSpec)
    (team : String) : StandingStatus :=
  let a := aggregateTeam league results team
  ⟨a.points, a.wins, a.losses, a.draws, none⟩

/-! ## Concrete fixtures (spec section 8, scenario A) -/

/-- Fixture team "Ravens". -/
def exTeamRavens : Team := ⟨"Ravens", none, none, [⟨"Edgar", "Poe"⟩]⟩

/-- Fixture team "Wolves". -/
def exTeamWolves : Team := ⟨"Wolves", none, none, [⟨"Jack", "London"⟩]⟩

/-- Fixture league with the two fixture teams. -/
def exLeague : TheLeague :=
  ⟨"premier", none, ⟨8, 2, [exTeamRavens, exTeamWolves]⟩, none⟩

/-- Fixture game: Ravens (home) beat Wolves (away) 3 to 1. -/
def exGame : GameResultSpec :=
  ⟨"premier", 1, fun i => if i = 0 then "Ravens" else "Wolves",
   "2025-01-01T15:00:00Z", GameOutcome.WinnerHomeTeam 3 1⟩

/-- Fixture game: a 2-2 draw between the same two teams. -/
def exGame2 : GameResultSpec :=
  ⟨"premier", 2, fun i => if i = 0 then "Ravens" else "Wolves",
   "2025-01-08T15:00:00Z", GameOutcome.Draw 2⟩

/-- Last-observed StandingStatus of a freshly created Standing: all
counters zero. -/
def exObservedStatus : StandingStatus := ⟨0, 0, 0, 0, none⟩

/-! ## Helper lemmas -/

theorem Accumulator.add_def (a b : Accumulator) :
    a + b = ⟨a.points + b.points, a.wins + b.wins, a.losses + b.losses,
             a.draws + b.draws, a.goals_for + b.goals_for,
             a.goals_against + b.goals_against⟩ := rfl

theorem Accumulator.zero_def :
    (0 : Accumulator) = ⟨0, 0, 0, 0, 0, 0⟩ := rfl

theorem teamNameClassChar_eq (c : Char) :
    teamNameClassChar c = (c.isLower || c.isUpper || c.isDigit || (c == ' ')) := rfl

theorem playerNameClassChar_eq (c : Char) :
    playerNameClassChar c = (c.isLower || c.isUpper) := rfl

theorem teamNameClassChar_iff (c : Char) :
    teamNameClassChar c = true ↔ (c.isAlphanum = true ∨ c = ' ') := by
  rw [teamNameClassChar_eq]
  simp [Char.isAlphanum, Char.isAlpha, Bool.or_eq_true, beq_iff_eq]
  tauto

theorem playerNameClassChar_iff (c : Char) :
    playerNameClassChar c = true ↔ c.isAlpha = true := by
  rw [playerNameClassChar_eq]
  simp [Char.isAlpha, Bool.or_eq_true]
  tauto

theorem matchesAnchoredPlus_iff (cls : Char → Bool) (s : String) :
    matchesAnchoredPlus cls s = true ↔ s.data ≠ [] ∧ ∀ c ∈ s.data, cls c = true := by
  simp [matchesAnchoredPlus, List.all_eq_true, List.isEmpty_iff]

theorem homeContribution_points_formula (o : GameOutcome) :
    (GameOutcome.homeContribution o).points =
      3 * (GameOutcome.homeContribution o).wins +
        1 * (GameOutcome.homeContribution o).draws := by
  cases o <;> simp [GameOutcome.homeContribution, winContribution, lossContribution,
    drawContribution]

theorem awayContribution_points_formula (o : GameOutcome) :
    (GameOutcome.awayContribution o).points =
      3 * (GameOutcome.awayContribution o).wins +
        1 * (GameOutcome.awayContribution o).draws := by
  cases o <;> simp [GameOutcome.awayContribution, winContribution, lossContribution,
    drawContribution]

theorem gameContribution_points_formula (league : TheLeagueSpec) (team : String)
    (g : GameResultSpec) :
    (gameContribution league team g).points =
      3 * (gameContribution league team g).wins +
        1 * (gameContribution league team g).draws := by
  unfold gameContribution
  split
  · have h1 := homeContribution_points_formula g.result
    have h2 := awayContribution_points_formula g.result
    split <;> split <;>
      simp [Accumulator.add_def, Accumulator.zero_def] <;> omega
  · simp [Accumulator.zero_def]

theorem sum_points_formula (l : List Accumulator)
    (h : ∀ a ∈ l, a.points = 3 * a.wins + 1 * a.draws) :
    l.sum.points = 3 * l.sum.wins + 1 * l.sum.draws := by
  induction l with
  | nil => simp [Accumulator.zero_def]
  | cons x xs ih =>
      have hx := h x (List.mem_cons_self x xs)
      have hxs := ih fun a ha => h a (List.mem_cons_of_mem x ha)
      simp [List.sum_cons, Accumulator.add_def]
      omega

/-! ## Claims -/

/-- C1 counterexample: `max_teams = 1` is accepted by the generated schema
(its annotated minimum is 1) although the claim requires every accepted
value to be at least 2. -/
theorem c1_max_teams_one_accepted : schemaAcceptsMaxTeams 1 ∧ 1 < 2 := by decide

/-- C1 (amended): the generated schema accepts exactly the `max_teams`
values between 1 and 8 inclusive; everything outside that range is
rejected. -/
theorem c1_max_teams_schema_range (v : Nat) :
    schemaAcceptsMaxTeams v ↔ (1 ≤ v ∧ v ≤ 8) := by
  unfold schemaAcceptsMaxTeams
  omega

/-- C1 witness: the amended range theorem applied at the concrete value 8. -/
theorem c1_max_teams_schema_range_witness : schemaAcceptsMaxTeams 8 :=
  (c1_max_teams_schema_range 8).mpr (by decide)

/-- C2 counterexample: the wire tag of a home win is `WinnerHomeTeam`, not
the claimed `WinnerHome`, and the claimed tag is rejected by
deserialization. -/
theorem c2_claimed_tag_rejected :
    GameOutcome.serdeTag (GameOutcome.WinnerHomeTeam 3 1) = "WinnerHomeTeam" ∧
    GameOutcome.deserialize "WinnerHome" [("score_home", 3), ("score_away", 1)] = none := by
  exact ⟨rfl, rfl⟩

/-- C2 (amended): every outcome's wire tag is exactly one of
`WinnerHomeTeam`, `WinnerAwayTeam` and `Draw`; the two winner variants
carry `score_home` and `score_away`, `Draw` carries a single `score`, and
externally tagged deserialization with these tags round-trips every
outcome. -/
theorem c2_outcome_wire_format (o : GameOutcome) :
    (GameOutcome.serdeTag o = "WinnerHomeTeam" ∨
     GameOutcome.serdeTag o = "WinnerAwayTeam" ∨
     GameOutcome.serdeTag o = "Draw") ∧
    GameOutcome.deserialize (GameOutcome.serdeTag o) (GameOutcome.serdeFields o) = some o ∧
    (∀ sh sa, o = GameOutcome.WinnerHomeTeam sh sa →
        GameOutcome.serdeFields o = [("score_home", sh), ("score_away", sa)]) ∧
    (∀ sh sa, o = GameOutcome.WinnerAwayTeam sh sa →
        GameOutcome.serdeFields o = [("score_home", sh), ("score_away", sa)]) ∧
    (∀ s, o = GameOutcome.Draw s → GameOutcome.serdeFields o = [("score", s)]) := by
  cases o <;>
    simp [GameOutcome.serdeTag, GameOutcome.serdeFields, GameOutcome.deserialize,
      List.lookup]

/-- C2 witness: the amended wire-format theorem applied to a concrete draw
outcome. -/
theorem c2_outcome_wire_format_witness :
    GameOutcome.deserialize (GameOutcome.serdeTag (GameOutcome.Draw 2))
        (GameOutcome.serdeFields (GameOutcome.Draw 2)) = some (GameOutcome.Draw 2) ∧
    GameOutcome.serdeFields (GameOutcome.Draw 2) = [("score", 2)] :=
  ⟨(c2_outcome_wire_format (GameOutcome.Draw 2)).2.1,
   (c2_outcome_wire_format (GameOutcome.Draw 2)).2.2.2.2 2 rfl⟩

/-- C3: evaluation at the failing input. Reconciling the fixture league
performs no store operation at all — the operation log is empty and the
function only requeues — although the status computed for "Ravens" from
the league's game result (3 points, 1 win) differs from the last observed
status (all zero), so no conditional write and no deletion can have
happened. -/
theorem c3_reconcile_writes_nothing :
    Reconciler.reconcileOps exLeague (Except.ok exLeague) =
      (Except.ok (KubeAction.requeue 3600), []) ∧
    computeStatus exLeague.spec [exGame] "Ravens" = ⟨3, 1, 0, 0, none⟩ ∧
    exObservedStatus = ⟨0, 0, 0, 0, none⟩ := by
  refine ⟨rfl, ?_, rfl⟩
  decide

/-- C4: evaluation at the failing input. Both error policies requeue after
a fixed 5 seconds whatever the object and whatever the error, so repeated
failures are retried at one fixed interval: there is no retry counter, no
exponential growth, no jitter and no `Degraded` condition. -/
theorem c4_error_policy_fixed_delay :
    TheLeagueController.error_policy exLeague KubeError.other = KubeAction.requeue 5 ∧
    Reconciler.error_policy exLeague (KubeError.api 500) = KubeAction.requeue 5 ∧
    Reconciler.error_policy exLeague KubeError.other = KubeAction.requeue 5 :=
  ⟨rfl, rfl, rfl⟩

/-- C5 counterexample: when the fetched League is gone (the `get` returns
404), `Reconciler::reconcile` completes successfully but returns
`await_change`, not a 3600 second requeue. -/
theorem c5_requeue_404_counterexample :
    Reconciler.reconcile exLeague (Except.error (KubeError.api 404)) =
      Except.ok KubeAction.awaitChange ∧
    decide (KubeAction.awaitChange = KubeAction.requeue 3600) = false :=
  ⟨rfl, rfl⟩

/-- C5 (amended): a reconciliation that completes successfully with the
League still present returns a 3600 second requeue (in both reconcilers);
when the League is already deleted, `Reconciler::reconcile` completes
successfully with `await_change` instead. -/
theorem c5_success_requeue (league fetched : TheLeague) :
    Reconciler.reconcile league (Except.ok fetched) =
      Except.ok (KubeAction.requeue 3600) ∧
    Reconciler.reconcile league (Except.error (KubeError.api 404)) =
      Except.ok KubeAction.awaitChange ∧
    TheLeagueController.reconcile league = Except.ok (KubeAction.requeue 3600) :=
  ⟨rfl, rfl, rfl⟩

/-- C6: every GameResult references exactly two teams — the `teams` array
has length 2, its first element is the home team and its second the away
team — and the `WinnerHomeTeam` / `WinnerAwayTeam` outcome tags designate
the first respectively the second element. -/
theorem c6_two_teams_home_away (g : GameResultSpec) :
    (GameResultSpec.teamsList g).length = 2 ∧
    GameResultSpec.teamsList g = [GameResultSpec.home g, GameResultSpec.away g] ∧
    (∀ sh sa, g.result = GameOutcome.WinnerHomeTeam sh sa →
        GameResultSpec.winner g = some (GameResultSpec.home g)) ∧
    (∀ sh sa, g.result = GameOutcome.WinnerAwayTeam sh sa →
        GameResultSpec.winner g = some (GameResultSpec.away g)) ∧
    (∀ s, g.result = GameOutcome.Draw s → GameResultSpec.winner g = none) := by
  refine ⟨?_, ?_, ?_, ?_, ?_⟩
  · simp [GameResultSpec.teamsList]
  · simp [GameResultSpec.teamsList, List.ofFn_succ, GameResultSpec.home,
      GameResultSpec.away]
  · intro sh sa h
    simp [GameResultSpec.winner, h]
  · intro sh sa h
    simp [GameResultSpec.winner, h]
  · intro s h
    simp [GameResultSpec.winner, h]

/-- C6 witness: the two-team theorem applied to the concrete fixture game,
whose outcome is a home win. -/
theorem c6_two_teams_witness :
    GameResultSpec.winner exGame = some (GameResultSpec.home exGame) :=
  (c6_two_teams_home_away exGame).2.2.1 3 1 rfl

/-- C7: every StandingStatus the (spec-modelled) aggregation engine
computes satisfies the fixed points rule: points equal three per win plus
one per draw. -/
theorem c7_points_formula (league : TheLeagueSpec) (results : List GameResultSpec)
    (team : String) :
    (computeStatus league results team).points =
      3 * (computeStatus league results team).wins +
        1 * (computeStatus league results team).draws := by
  show (aggregateTeam league results team).points =
    3 * (aggregateTeam league results team).wins +
      1 * (aggregateTeam league results team).draws
  unfold aggregateTeam
  apply sum_points_formula
  intro a ha
  rcases List.mem_map.mp ha with ⟨g, _, rfl⟩
  exact gameContribution_points_formula league team g

/-- C8: the (spec-modelled) aggregation is permutation-invariant — any
reordering of the game results yields the same accumulator for every team;
with the identity permutation this is also the statement that re-running
the engine on unchanged input reproduces the same accumulators. -/
theorem c8_aggregation_perm_invariant (league : TheLeagueSpec)
    (l1 l2 : List GameResultSpec) (h : List.Perm l1 l2) (team : String) :
    aggregateTeam league l1 team = aggregateTeam league l2 team := by
  unfold aggregateTeam
  exact List.Perm.sum_eq (List.Perm.map (gameContribution league team) h)

/-- C8 witness: permutation invariance applied to the two fixture games in
both orders. -/
theorem c8_aggregation_perm_witness :
    aggregateTeam exLeague.spec [exGame, exGame2] "Ravens" =
      aggregateTeam exLeague.spec [exGame2, exGame] "Ravens" :=
  c8_aggregation_perm_invariant exLeague.spec [exGame, exGame2] [exGame2, exGame]
    (List.Perm.swap exGame2 exGame []) "Ravens"

/-- C9: `TheLeagueController::reconcile` is total — for every League it
returns `Ok` with a 3600 second requeue and never an error, so its paired
error policy is unreachable through this reconciler. -/
theorem c9_controller_reconcile_total (league : TheLeague) :
    TheLeagueController.reconcile league = Except.ok (KubeAction.requeue 3600) := rfl

/-- C10: the generated schema accepts exactly the Teams whose name is a
non-empty string of ASCII alphanumerics and spaces, and exactly the
Players whose first and last names are non-empty strings of ASCII
letters. -/
theorem c10_name_patterns (t : Team) (p : Player) :
    (schemaAcceptsTeam t = true ↔
       t.name.data ≠ [] ∧ ∀ c ∈ t.name.data, (c.isAlphanum = true ∨ c = ' ')) ∧
    (schemaAcceptsPlayer p = true ↔
       (p.first_name.data ≠ [] ∧ ∀ c ∈ p.first_name.data, c.isAlpha = true) ∧
       (p.last_name.data ≠ [] ∧ ∀ c ∈ p.last_name.data, c.isAlpha = true)) := by
  constructor
  · unfold schemaAcceptsTeam
    rw [matchesAnchoredPlus_iff]
    simp only [teamNameClassChar_iff]
  · unfold schemaAcceptsPlayer
    rw [Bool.and_eq_true, matchesAnchoredPlus_iff, matchesAnchoredPlus_iff]
    simp only [playerNameClassChar_iff]

/-- C10 witness: the pattern theorem applied to the fixture team and one of
its players. -/
theorem c10_name_patterns_witness :
    schemaAcceptsTeam exTeamRavens = true ∧
    schemaAcceptsPlayer ⟨"Edgar", "Poe"⟩ = true :=
  ⟨(c10_name_patterns exTeamRavens ⟨"Edgar", "Poe"⟩).1.mpr (by decide),
   (c10_name_patterns exTeamRavens ⟨"Edgar", "Poe"⟩).2.mpr (by decide)⟩
